import Mathlib

/-!
Shallow embedding of the call-of-duty-api client (src/src/src/index.ts) and
proofs about its identity/platform resolution, endpoint templating, session
management and request dispatch.

Modelling conventions:
* TypeScript string enums (`platforms`, `games`, `modes`, ...) are modelled by
  their runtime string values, exactly as the source compares them.
* JavaScript truthiness on strings is `s ≠ ""`.
* `isNaN(Number(s))` is modelled by `jsNumberIsNaN`, a recogniser for the
  ECMAScript StringNumericLiteral grammar (whitespace trimming, optional sign,
  decimal literals with fraction/exponent, `Infinity`, and 0x/0o/0b integer
  literals); the numeric value itself is never needed, only NaN-ness.
* `encodeURIComponent` is modelled byte-for-byte: UTF-8 encode, keep the
  unreserved set `A-Z a-z 0-9 - _ . ! ~ * ' ( )`, percent-encode the rest
  with uppercase hex digits.
* Module-global mutable state (`baseHeaders`, `basePostHeaders`,
  `baseSsoToken`, `loggedIn`, `telescopeUnoToken`, and the `authorization`
  field of `baseTelescopeHeaders`) is collected in `SessionState` and threaded
  explicitly.  Header fields that no function ever reassigns after module
  initialisation ("content-type", "user-agent", the static telescope headers)
  are constants and are not part of the mutable state.
* Network I/O is represented by an explicit trace of `NetworkCall`s returned
  by each operation, plus an `HttpResponse` oracle argument standing for the
  response the network would deliver; `body.json()` succeeding or failing is
  the `jsonBody : Option Json` field of that oracle.
* Thrown `Error`s are the constructors of `CodError`; `CodError.message`
  recovers the literal message string of each `throw` site in the source.
-/

/-! ### JavaScript string/number primitives -/

/-- JS decimal digit (0-9), by code point. -/
def isDigitChar (c : Char) : Bool := 48 ≤ c.toNat && c.toNat ≤ 57

/-- JS hexadecimal digit. -/
def isHexDigitChar (c : Char) : Bool :=
  (48 ≤ c.toNat && c.toNat ≤ 57) || (65 ≤ c.toNat && c.toNat ≤ 70) ||
    (97 ≤ c.toNat && c.toNat ≤ 102)

/-- JS octal digit. -/
def isOctalDigitChar (c : Char) : Bool := 48 ≤ c.toNat && c.toNat ≤ 55

/-- JS binary digit. -/
def isBinaryDigitChar (c : Char) : Bool := c.toNat = 48 || c.toNat = 49

/-- The ECMAScript WhiteSpace ∪ LineTerminator set used by `String.prototype.trim`
and by `Number()` coercion. -/
def jsWhitespaceChar (c : Char) : Bool :=
  let n := c.toNat
  (9 ≤ n && n ≤ 13) || n = 32 || n = 160 || n = 0x1680 ||
    (0x2000 ≤ n && n ≤ 0x200A) || n = 0x2028 || n = 0x2029 ||
    n = 0x202F || n = 0x205F || n = 0x3000 || n = 0xFEFF

/-- Strip leading and trailing JS whitespace from a character list. -/
def jsTrimChars (cs : List Char) : List Char :=
  ((cs.dropWhile jsWhitespaceChar).reverse.dropWhile jsWhitespaceChar).reverse

/-- JS `String.prototype.trim`. -/
def jsTrim (s : String) : String := ⟨jsTrimChars s.data⟩

/-- Consume a maximal run of decimal digits, returning how many and the rest. -/
def eatDigits : List Char → Nat × List Char
  | [] => (0, [])
  | c :: rest =>
    if isDigitChar c then
      let (n, r) := eatDigits rest
      (n + 1, r)
    else (0, c :: rest)

/-- Recognise an optional ExponentPart covering the whole remaining input:
empty, or `e`/`E`, optional sign, then at least one digit. -/
def isOptExponentTail : List Char → Bool
  | [] => true
  | c :: rest =>
    (c = 'e' || c = 'E') &&
      (let rest2 := match rest with
        | s :: r => if s = '+' || s = '-' then r else s :: r
        | [] => []
      let (k, rest3) := eatDigits rest2
      decide (k ≠ 0) && rest3.isEmpty)

/-- Recognise a StrUnsignedDecimalLiteral: `Infinity`, or digits with an
optional fraction part and optional exponent. -/
def isUnsignedDecimalLiteral (cs : List Char) : Bool :=
  cs = ['I', 'n', 'f', 'i', 'n', 'i', 't', 'y'] ||
    (let (n, rest) := eatDigits cs
     match rest with
     | '.' :: rest2 =>
       let (m, rest3) := eatDigits rest2
       decide (n + m ≠ 0) && isOptExponentTail rest3
     | _ => decide (n ≠ 0) && isOptExponentTail rest)

/-- Recognise a StrDecimalLiteral (optionally signed). -/
def isSignedDecimalLiteral (cs : List Char) : Bool :=
  match cs with
  | [] => isUnsignedDecimalLiteral []
  | c :: rest =>
    if c = '+' || c = '-' then isUnsignedDecimalLiteral rest
    else isUnsignedDecimalLiteral (c :: rest)

/-- Recognise a NonDecimalIntegerLiteral: 0x/0X, 0o/0O or 0b/0B with at least
one digit of the corresponding base. -/
def isNonDecimalIntegerLiteral (cs : List Char) : Bool :=
  match cs with
  | '0' :: x :: rest =>
    ((x = 'x' || x = 'X') && !rest.isEmpty && rest.all isHexDigitChar) ||
      ((x = 'o' || x = 'O') && !rest.isEmpty && rest.all isOctalDigitChar) ||
      ((x = 'b' || x = 'B') && !rest.isEmpty && rest.all isBinaryDigitChar)
  | _ => false

/-- Model of `isNaN(Number(s))` for a JS string `s`: true exactly when the trimmed
string is non-empty and matches no numeric literal form. -/
def jsNumberIsNaN (s : String) : Bool :=
  let cs := jsTrimChars s.data
  !(cs.isEmpty || isSignedDecimalLiteral cs || isNonDecimalIntegerLiteral cs)

/-! ### encodeURIComponent -/

/-- UTF-8 encoding of one code point, as byte values. -/
def utf8Bytes (c : Char) : List Nat :=
  let n := c.toNat
  if n < 0x80 then [n]
  else if n < 0x800 then [0xC0 + n / 64, 0x80 + n % 64]
  else if n < 0x10000 then
    [0xE0 + n / 4096, 0x80 + (n / 64) % 64, 0x80 + n % 64]
  else
    [0xF0 + n / 0x40000, 0x80 + (n / 4096) % 64, 0x80 + (n / 64) % 64,
      0x80 + n % 64]

/-- Bytes left intact by `encodeURIComponent`:
`A-Z a-z 0-9` and `- _ . ! ~ * ' ( )`. -/
def uriUnreservedByte (n : Nat) : Bool :=
  (48 ≤ n && n ≤ 57) || (65 ≤ n && n ≤ 90) || (97 ≤ n && n ≤ 122) ||
    n = 45 || n = 95 || n = 46 || n = 33 || n = 126 || n = 42 || n = 39 ||
    n = 40 || n = 41

/-- Uppercase hexadecimal digit for a value below 16. -/
def hexUpper (n : Nat) : Char :=
  if n < 10 then Char.ofNat (48 + n) else Char.ofNat (55 + n)

/-- Percent-encode a single byte unless it is unreserved. -/
def percentEncodeByte (n : Nat) : List Char :=
  if uriUnreservedByte n then [Char.ofNat n]
  else ['%', hexUpper (n / 16), hexUpper (n % 16)]

/-- JS `encodeURIComponent`. -/
def encodeURIComponent (s : String) : String :=
  ⟨((s.data.map utf8Bytes).flatten.map percentEncodeByte).flatten⟩

/-- Source `cleanClientName`: just `encodeURIComponent`. -/
def cleanClientName (gamertag : String) : String := encodeURIComponent gamertag

/-! ### Module constants and enumerations (index.ts lines 6-104) -/

def baseCookie : String := "new_SiteId=cod;ACT_SSO_LOCALE=en_US;country=US;"
def baseUrl : String := "https://profile.callofduty.com"
def apiPath : String := "/api/papi-client"
def baseTelescopeUrl : String := "https://telescope.callofduty.com"
def apiTelescopePath : String := "/api/ts-api"

/-- Value of `Object.values(platforms)`: the runtime values of the `platforms`
string enum, in declaration order. -/
def platformValues : List String :=
  ["all", "acti", "battle", "psn", "steam", "uno", "xbl", "ios", "_"]

def STEAM_UNSUPPORTED_MSG : String :=
  "Steam platform not supported by this game. Try `battle` instead."

def UNO_NO_NUMERICAL_ID_MSG : String :=
  "You must use a numerical ID when using the platform 'uno'.\nIf using an Activision ID, please use the platform 'acti'."

/-- Rendering of `JSON.stringify(xs, null, 2)` for a list of strings, as used in the
invalid-platform message. -/
def jsonStringifyStringList (xs : List String) : String :=
  "[\n" ++ String.intercalate ",\n" (xs.map fun s => "  \"" ++ s ++ "\"") ++ "\n]"

/-- Every distinct `throw new Error(...)` site of the client, as a typed
error; `message` below recovers the literal message text. -/
inductive CodError where
  | invalidPlatform (platform : String)
  | unoNoNumericalId
  | steamUnsupported
  | notLoggedInLegacy
  | notLoggedInTelescope
  | transport (statusCode : Nat)
  | parseFailure
  deriving DecidableEq, Repr

/-- The literal `Error` message thrown at each site in index.ts. -/
def CodError.message : CodError → String
  | .invalidPlatform p =>
    "Platform '" ++ p ++ "' is not valid.\nTry one of the following:\n" ++
      jsonStringifyStringList platformValues
  | .unoNoNumericalId => UNO_NO_NUMERICAL_ID_MSG
  | .steamUnsupported => STEAM_UNSUPPORTED_MSG
  | .notLoggedInLegacy => "Not Logged In."
  | .notLoggedInTelescope => "Not Logged In!"
  | .transport statusCode =>
    "Received status code: '" ++ toString statusCode ++
      "'. Route may be down or not exist."
  | .parseFailure => "Unexpected end of JSON input"

/-! ### Session state (the module-global mutable variables) -/

/-- The header fields of `baseHeaders` / `basePostHeaders` that `login`
mutates.  "content-type" and "user-agent" are set once at module
initialisation and never reassigned, so they are not part of the state. -/
structure AuthHeaderFields where
  xXsrfToken : Option String
  xCsrfToken : Option String
  atviAuth : Option String
  actSsoCookie : Option String
  atkn : Option String
  cookie : String
  deriving DecidableEq, Repr

/-- State of `baseHeaders` / `basePostHeaders` at module initialisation. -/
def initialAuthHeaderFields : AuthHeaderFields :=
  { xXsrfToken := none, xCsrfToken := none, atviAuth := none
    actSsoCookie := none, atkn := none, cookie := baseCookie }

/-- The module-global mutable state of index.ts. -/
structure SessionState where
  baseHeaders : AuthHeaderFields
  basePostHeaders : AuthHeaderFields
  baseSsoToken : String
  /-- The single shared `loggedIn` flag (index.ts line 52). -/
  loggedIn : Bool
  telescopeUnoToken : String
  /-- `baseTelescopeHeaders.authorization`, set by `sendTelescopeRequest`. -/
  telescopeAuthorization : Option String
  deriving DecidableEq, Repr

/-- Module state right after initialisation. -/
def initialState : SessionState :=
  { baseHeaders := initialAuthHeaderFields
    basePostHeaders := initialAuthHeaderFields
    baseSsoToken := ""
    loggedIn := false
    telescopeUnoToken := ""
    telescopeAuthorization := none }

/-! ### Network effects -/

/-- One performed HTTP request (url after base-path composition). -/
structure NetworkCall where
  url : String
  method : String
  deriving DecidableEq, Repr

/-- A JSON value, as produced by `body.json()`. -/
inductive Json where
  | null
  | bool (b : Bool)
  | num (n : Int)
  | str (s : String)
  | arr (elems : List Json)
  | obj (fields : List (String × Json))

/-- The network's answer to one request: the status code, and the result of
attempting `body.json()` on the body (`none` = the body is not valid JSON). -/
structure HttpResponse where
  statusCode : Nat
  jsonBody : Option Json

/-! ### Session manager (index.ts lines 213-270) -/

def fakeXSRF : String := "68e8b62e-1d9d-4ce1-b93f-cbe5ff31a041"

/-- The cookie string `login` synthesizes from the token. -/
def loginCookie (ssoToken : String) : String :=
  baseCookie ++ "ACT_SSO_COOKIE=" ++ ssoToken ++ ";XSRF-TOKEN=" ++ fakeXSRF ++
    ";API_CSRF_TOKEN=" ++ fakeXSRF ++
    ";ACT_SSO_EVENT=\"LOGIN_SUCCESS:1644346543228\";ACT_SSO_COOKIE_EXPIRY=1645556143194;comid=cod;ssoDevId=63025d09c69f47dfa2b8d5520b5b73e4;tfa_enrollment_seen=true;gtm.custom.bot.flag=human;"

/-- The header fields `login` assigns, a function of the token alone
(the same values go into `baseHeaders` and `basePostHeaders`). -/
def loginAuthFields (ssoToken : String) : AuthHeaderFields :=
  { xXsrfToken := some fakeXSRF, xCsrfToken := some fakeXSRF
    atviAuth := some ssoToken, actSsoCookie := some ssoToken
    atkn := some ssoToken, cookie := loginCookie ssoToken }

/-- Source `login(ssoToken)` (index.ts lines 213-235).  Returns the performed
network calls (always none), the boolean result, and the new state. -/
def login (ssoToken : String) (st : SessionState) :
    List NetworkCall × Bool × SessionState :=
  if ssoToken = "" || (jsTrim ssoToken).length ≤ 0 then ([], false, st)
  else
    ([], true,
      { st with
        baseHeaders := loginAuthFields ssoToken
        basePostHeaders := loginAuthFields ssoToken
        baseSsoToken := ssoToken
        loggedIn := true })

def telescope_login_endpoint : String :=
  "https://wzm-ios-loginservice.prod.demonware.net/v1/login/uno/?titleID=7100&client=shg-cod-jup-bnet"

/-- The network's answer to the telescope login call: the status code and,
for the 200 case, the `umbrella.accessToken` field of the parsed body. -/
structure TelescopeLoginNetResult where
  statusCode : Nat
  accessToken : String

/-- Source `telescopeLogin(username, password)` (index.ts lines 239-270).  On a 200
the token is stored; on any status the shared `loggedIn` flag becomes
`statusCode == 200` (a 403 additionally only logs to the console). -/
def telescopeLogin (username password : String) (st : SessionState)
    (resp : TelescopeLoginNetResult) :
    List NetworkCall × Bool × SessionState :=
  if username = "" || password = "" then ([], false, st)
  else
    let st1 :=
      if resp.statusCode = 200 then
        { st with telescopeUnoToken := resp.accessToken }
      else st
    let st2 := { st1 with loggedIn := decide (resp.statusCode = 200) }
    ([{ url := telescope_login_endpoint, method := "POST" }], st2.loggedIn, st2)

/-! ### Request dispatchers (index.ts lines 130-207) -/

/-- Source `sendRequest(url)` (index.ts lines 153-184): gated on the shared
`loggedIn` flag, then status classification, then body parse. -/
def sendRequest (st : SessionState) (url : String) (resp : HttpResponse) :
    List NetworkCall × Except CodError Json :=
  if !st.loggedIn then ([], .error .notLoggedInLegacy)
  else
    let calls := [{ url := baseUrl ++ apiPath ++ url, method := "GET" : NetworkCall }]
    if resp.statusCode ≥ 500 then (calls, .error (.transport resp.statusCode))
    else
      match resp.jsonBody with
      | none => (calls, .error .parseFailure)
      | some j => (calls, .ok j)

/-- Source `sendPostRequest(url, data)` (index.ts lines 186-207). -/
def sendPostRequest (st : SessionState) (url : String) (data : String)
    (resp : HttpResponse) : List NetworkCall × Except CodError Json :=
  if !st.loggedIn then ([], .error .notLoggedInLegacy)
  else
    let calls := [{ url := baseUrl ++ apiPath ++ url, method := "POST" : NetworkCall }]
    if resp.statusCode ≥ 500 then (calls, .error (.transport resp.statusCode))
    else
      match resp.jsonBody with
      | none => (calls, .error .parseFailure)
      | some j => (calls, .ok j)

/-- Source `sendTelescopeRequest(url)` (index.ts lines 130-151): gated on the same
shared `loggedIn` flag; also writes the bearer token into the telescope
headers before the request. -/
def sendTelescopeRequest (st : SessionState) (url : String)
    (resp : HttpResponse) :
    List NetworkCall × SessionState × Except CodError Json :=
  if !st.loggedIn then ([], st, .error .notLoggedInTelescope)
  else
    let st1 :=
      { st with telescopeAuthorization := some ("Bearer " ++ st.telescopeUnoToken) }
    let calls :=
      [{ url := baseTelescopeUrl ++ apiTelescopePath ++ url, method := "GET" : NetworkCall }]
    if resp.statusCode ≥ 500 then
      (calls, st1, .error (.transport resp.statusCode))
    else
      match resp.jsonBody with
      | none => (calls, st1, .error .parseFailure)
      | some j => (calls, st1, .ok j)

/-! ### Identity & platform resolver (index.ts lines 272-313) -/

/-- Source `handleLookupType` (index.ts lines 272-274). -/
def handleLookupType (platform : String) : String :=
  if platform = "uno" then "id" else "gamer"

/-- Source `checkForValidPlatform(platform, gamertag)` (index.ts lines 276-288):
membership in the enum's values, then the uno numeric-id guard
(`gamertag && isNaN(Number(gamertag)) && platform === platforms.Uno`). -/
def checkForValidPlatform (platform : String) (gamertag : String) :
    Except CodError Unit :=
  if !(platformValues.contains platform) then
    .error (.invalidPlatform platform)
  else if gamertag ≠ "" && jsNumberIsNaN gamertag && platform = "uno" then
    .error .unoNoNumericalId
  else .ok ()

/-- The object returned by `mapGamertagToPlatform`. -/
structure MappedGamertag where
  gamertag : String
  _platform : String
  lookupType : String
  deriving DecidableEq, Repr

/-- Source `mapGamertagToPlatform(gamertag, platform, steamSupport)` (index.ts lines
290-313); `steamSupport` defaults to `false` in the source. -/
def mapGamertagToPlatform (gamertag : String) (platform : String)
    (steamSupport : Bool) : Except CodError MappedGamertag := do
  let () ← checkForValidPlatform platform gamertag
  let lookupType := handleLookupType platform
  if !steamSupport && platform = "steam" then
    throw .steamUnsupported
  let gamertag :=
    if (platform = "battle" || platform = "acti" || platform = "uno") &&
        gamertag ≠ "" then
      cleanClientName gamertag
    else gamertag
  let platform := if platform = "uno" || platform = "acti" then "uno" else platform
  return { gamertag := gamertag, _platform := platform, lookupType := lookupType }

/-! ### Endpoint templating (index.ts lines 315-390) -/

/-- The `Endpoints` class fields (all TS string-enum values, as strings). -/
structure Endpoints where
  game : String
  gamertag : String
  platform : String
  lookupType : String
  mode : String
  deriving DecidableEq, Repr

namespace Endpoints

def fullData (e : Endpoints) : String :=
  "/stats/cod/v1/title/" ++ e.game ++ "/platform/" ++ e.platform ++ "/" ++
    e.lookupType ++ "/" ++ e.gamertag ++ "/profile/type/" ++ e.mode

def combatHistory (e : Endpoints) : String :=
  "/crm/cod/v2/title/" ++ e.game ++ "/platform/" ++ e.platform ++ "/" ++
    e.lookupType ++ "/" ++ e.gamertag ++ "/matches/" ++ e.mode ++
    "/start/0/end/0/details"

def combatHistoryWithDate (e : Endpoints) (startTime endTime : Int) : String :=
  "/crm/cod/v2/title/" ++ e.game ++ "/platform/" ++ e.platform ++ "/" ++
    e.lookupType ++ "/" ++ e.gamertag ++ "/matches/" ++ e.mode ++
    "/start/" ++ toString startTime ++ "/end/" ++ toString endTime ++ "/details"

def breakdown (e : Endpoints) : String :=
  "/crm/cod/v2/title/" ++ e.game ++ "/platform/" ++ e.platform ++ "/" ++
    e.lookupType ++ "/" ++ e.gamertag ++ "/matches/" ++ e.mode ++
    "/start/0/end/0"

def breakdownWithDate (e : Endpoints) (startTime endTime : Int) : String :=
  "/crm/cod/v2/title/" ++ e.game ++ "/platform/" ++ e.platform ++ "/" ++
    e.lookupType ++ "/" ++ e.gamertag ++ "/matches/" ++ e.mode ++
    "/start/" ++ toString startTime ++ "/end/" ++ toString endTime

def matchInfo (e : Endpoints) (matchId : String) : String :=
  "/crm/cod/v2/title/" ++ e.game ++ "/platform/" ++ e.platform ++
    "/fullMatch/wz/" ++ matchId ++ "/en"

def seasonLoot (e : Endpoints) : String :=
  "/loot/title/" ++ e.game ++ "/platform/" ++ e.platform ++ "/" ++
    e.lookupType ++ "/" ++ e.gamertag ++ "/status/en"

def mapList (e : Endpoints) : String :=
  "/ce/v1/title/" ++ e.game ++ "/platform/" ++ e.platform ++ "/gameType/" ++
    e.mode ++ "/communityMapData/availability"

def search (e : Endpoints) : String :=
  "/crm/cod/v2/platform/" ++ e.platform ++ "/username/" ++ e.gamertag ++
    "/search"

end Endpoints

/-- The `TelescopeEndpoints` class fields. -/
structure TelescopeEndpoints where
  game : String
  unoId : String
  mode : String
  deriving DecidableEq, Repr

namespace TelescopeEndpoints

def lifeTime (e : TelescopeEndpoints) : String :=
  "/cr/v1/title/" ++ e.game ++ "/lifetime?language=english&unoId=" ++ e.unoId

def «matches» (e : TelescopeEndpoints) : String :=
  "/cr/v1/title/" ++ e.game ++ "/matches?language=english&unoId=" ++ e.unoId

def matchById (e : TelescopeEndpoints) (matchId : String) : String :=
  "/cr/v1/title/" ++ e.game ++ "/match/" ++ matchId ++
    "?language=english&unoId=" ++ e.unoId

end TelescopeEndpoints

/-! ### Title adapters used by the claims -/

/-- Path construction done by `Misc.search` (class ALT, index.ts lines
1239-1254): resolution with `steamSupport = true`, then the search path. -/
def ALT_search_path (gamertag : String) (platform : String) :
    Except CodError String := do
  let m ← mapGamertagToPlatform gamertag platform true
  return (Endpoints.mk "_" m.gamertag m._platform m.lookupType "_").search

/-- Path construction done by the legacy per-title `matchInfo` adapters
(e.g. `MW.matchInfo`, index.ts lines 602-616): resolution of an empty
gamertag, then the match-detail path with the title's own mode. -/
def title_matchInfo_path (game : String) (titleMode : String)
    (matchId : String) (platform : String) : Except CodError String := do
  let m ← mapGamertagToPlatform "" platform false
  return (Endpoints.mk game m.gamertag m._platform m.lookupType titleMode).matchInfo
    matchId

/-! ### Spec-side definitions (for refinement comparison only) -/

/-- Modelled from the spec's words (§4.1, glossary): a handle is "purely
numeric" when it is non-empty and consists of decimal digits only.  Used to
compare the spec's claim against the code's `isNaN(Number(gamertag))` test. -/
def specPurelyNumeric (s : String) : Bool :=
  !s.isEmpty && s.data.all isDigitChar

/-! ### Helper lemmas -/

theorem jsWhitespaceChar_of_digit (c : Char) (h : isDigitChar c = true) :
    jsWhitespaceChar c = false := by
  simp only [isDigitChar, Bool.and_eq_true, decide_eq_true_eq] at h
  simp only [jsWhitespaceChar, Bool.or_eq_false_iff, Bool.and_eq_false_iff,
    decide_eq_false_iff_not]
  omega

theorem dropWhile_jsWhitespace_of_digits (cs : List Char)
    (h : cs.all isDigitChar = true) : cs.dropWhile jsWhitespaceChar = cs := by
  cases cs with
  | nil => rfl
  | cons c rest =>
    simp only [List.all_cons, Bool.and_eq_true] at h
    rw [List.dropWhile_cons, jsWhitespaceChar_of_digit c h.1]
    simp

theorem jsTrimChars_of_digits (cs : List Char) (h : cs.all isDigitChar = true) :
    jsTrimChars cs = cs := by
  unfold jsTrimChars
  rw [dropWhile_jsWhitespace_of_digits cs h,
    dropWhile_jsWhitespace_of_digits cs.reverse (by simpa using h),
    List.reverse_reverse]

theorem eatDigits_of_digits (cs : List Char) (h : cs.all isDigitChar = true) :
    eatDigits cs = (cs.length, []) := by
  induction cs with
  | nil => rfl
  | cons c rest ih =>
    simp only [List.all_cons, Bool.and_eq_true] at h
    simp [eatDigits, h.1, ih h.2]

theorem jsNumberIsNaN_of_digits (s : String) (h : s.data.all isDigitChar = true) :
    jsNumberIsNaN s = false := by
  unfold jsNumberIsNaN
  rw [jsTrimChars_of_digits _ h]
  cases hd : s.data with
  | nil => simp
  | cons c rest =>
    rw [hd] at h
    simp only [List.all_cons, Bool.and_eq_true] at h
    have hc : isDigitChar c = true := h.1
    have hplus : (c = '+' || c = '-') = false := by
      simp only [isDigitChar, Bool.and_eq_true, decide_eq_true_eq] at hc
      simp only [Bool.or_eq_false_iff, decide_eq_false_iff_not]
      constructor
      · intro e; subst e; exact absurd hc (by decide)
      · intro e; subst e; exact absurd hc (by decide)
    have hu : isUnsignedDecimalLiteral (c :: rest) = true := by
      unfold isUnsignedDecimalLiteral
      rw [eatDigits_of_digits (c :: rest) (by simp [List.all_cons, h.1, h.2])]
      simp [isOptExponentTail]
    have hs : isSignedDecimalLiteral (c :: rest) = true := by
      simp only [isSignedDecimalLiteral]
      rw [hplus]
      simp [hu]
    simp [hs]

theorem utf8Bytes_of_digit (c : Char) (h : isDigitChar c = true) :
    utf8Bytes c = [c.toNat] := by
  simp only [isDigitChar, Bool.and_eq_true, decide_eq_true_eq] at h
  unfold utf8Bytes
  simp only []
  rw [if_pos (by omega)]

theorem percentEncodeByte_of_digit (n : Nat) (h48 : 48 ≤ n) (h57 : n ≤ 57) :
    percentEncodeByte n = [Char.ofNat n] := by
  unfold percentEncodeByte
  rw [if_pos]
  simp only [uriUnreservedByte, Bool.or_eq_true, Bool.and_eq_true,
    decide_eq_true_eq]
  omega

theorem encodeURIComponent_of_digits (s : String)
    (h : s.data.all isDigitChar = true) : encodeURIComponent s = s := by
  cases s with
  | mk cs =>
    simp only [String.data] at h
    unfold encodeURIComponent
    congr 1
    induction cs with
    | nil => rfl
    | cons c rest ih =>
      simp only [List.all_cons, Bool.and_eq_true] at h
      have hb : 48 ≤ c.toNat ∧ c.toNat ≤ 57 := by
        have := h.1
        simp only [isDigitChar, Bool.and_eq_true, decide_eq_true_eq] at this
        exact this
      simp only [String.data, List.map_cons, List.flatten_cons,
        utf8Bytes_of_digit c h.1, List.map_append, List.flatten_append,
        List.map_cons, List.flatten_cons, List.map_nil, List.flatten_nil,
        percentEncodeByte_of_digit c.toNat hb.1 hb.2]
      rw [Char.ofNat_toNat]
      simpa using ih h.2

theorem string_length_zero (s : String) (h : s.length = 0) : s = "" := by
  cases s with
  | mk cs =>
    cases cs with
    | nil => rfl
    | cons c r => simp [String.length] at h

/-! ### Claims -/

/-- C2: both login operations fail closed on missing credentials: an empty
or whitespace-only SSO token makes `login` return false with no state
mutation and no network call, and an empty username or an empty password
makes `telescopeLogin` return false with no state mutation and no network
call. -/
theorem C2_logins_fail_closed (ssoToken username password : String)
    (st : SessionState) (resp : TelescopeLoginNetResult)
    (hTok : ssoToken = "" ∨ (jsTrim ssoToken).length = 0)
    (hCred : username = "" ∨ password = "") :
    login ssoToken st = ([], false, st) ∧
      telescopeLogin username password st resp = ([], false, st) := by
  constructor
  · unfold login
    rcases hTok with h | h <;> simp [h]
  · unfold telescopeLogin
    rcases hCred with h | h <;> simp [h]

/-- Witness for C2: whitespace-only token, empty username. -/
theorem C2_witness :
    login " " initialState = ([], false, initialState) ∧
      telescopeLogin "" "hunter2" initialState ⟨200, "tok"⟩ =
        ([], false, initialState) :=
  C2_logins_fail_closed " " "" "hunter2" initialState ⟨200, "tok"⟩
    (Or.inr (by decide)) (Or.inl rfl)

/-- C9: for every token whose trimmed form is non-empty, legacy `login`
returns true, marks the session logged in with no network call, and the
resulting header/cookie fields (`baseHeaders` and `basePostHeaders`) are the
pure function `loginAuthFields` of the token alone — no validation of the
token content happens at login time. -/
theorem C9_login_pure_of_token (ssoToken : String) (st : SessionState)
    (h : jsTrim ssoToken ≠ "") :
    login ssoToken st =
      ([], true,
        { st with
          baseHeaders := loginAuthFields ssoToken
          basePostHeaders := loginAuthFields ssoToken
          baseSsoToken := ssoToken
          loggedIn := true }) := by
  have hne : ssoToken ≠ "" := by
    intro e
    exact h (by rw [e]; rfl)
  have hlen : ¬((jsTrim ssoToken).length ≤ 0) := by
    intro hle
    exact h (string_length_zero _ (Nat.le_zero.mp hle))
  unfold login
  simp [hne, hlen]

/-- Witness for C9 at the token "TOKEN". -/
theorem C9_witness :
    login "TOKEN" initialState =
      ([], true,
        { initialState with
          baseHeaders := loginAuthFields "TOKEN"
          basePostHeaders := loginAuthFields "TOKEN"
          baseSsoToken := "TOKEN"
          loggedIn := true }) :=
  C9_login_pure_of_token "TOKEN" initialState (by decide)

/-- C1 counterexample: the claim that a successful legacy login never
satisfies the telescope backend's authentication requirement is false.
After `login "TOKEN"` alone — no telescope login ever performed — the
telescope dispatcher's authentication gate passes and the request is
answered instead of failing with the "Not Logged In!" error. -/
theorem C1_counterexample :
    (login "TOKEN" initialState).2.1 = true ∧
      (sendTelescopeRequest (login "TOKEN" initialState).2.2
          "/cr/v1/title/mw2/lifetime?language=english&unoId=1"
          { statusCode := 200, jsonBody := some Json.null }).2.2 =
        Except.ok Json.null :=
  ⟨rfl, rfl⟩

/-- C1 (amended): legacy and telescope authentication are NOT independent.
Both dispatchers are gated on the single shared `loggedIn` flag: while it is
false, every dispatch on either backend fails with its "not logged in" error
and performs no network call; a successful legacy login sets the shared flag
(authorizing both backends), and a telescope login attempt with credentials
overwrites the shared flag with whether the status was 200. -/
theorem C1_shared_logged_in_flag (st : SessionState) (url data : String)
    (resp : HttpResponse) (ssoToken username password : String)
    (tresp : TelescopeLoginNetResult)
    (hFlag : st.loggedIn = false)
    (hTok : jsTrim ssoToken ≠ "")
    (hU : username ≠ "") (hP : password ≠ "") :
    sendRequest st url resp = ([], .error .notLoggedInLegacy) ∧
    sendPostRequest st url data resp = ([], .error .notLoggedInLegacy) ∧
    sendTelescopeRequest st url resp = ([], st, .error .notLoggedInTelescope) ∧
    ((login ssoToken st).2.2).loggedIn = true ∧
    ((telescopeLogin username password st tresp).2.2).loggedIn =
      decide (tresp.statusCode = 200) := by
  have hne : ssoToken ≠ "" := by
    intro e
    exact hTok (by rw [e]; rfl)
  have hlen : ¬((jsTrim ssoToken).length ≤ 0) := by
    intro hle
    exact hTok (string_length_zero _ (Nat.le_zero.mp hle))
  refine ⟨?_, ?_, ?_, ?_, ?_⟩
  · unfold sendRequest; simp [hFlag]
  · unfold sendPostRequest; simp [hFlag]
  · unfold sendTelescopeRequest; simp [hFlag]
  · unfold login; simp [hne, hlen]
  · unfold telescopeLogin
    simp only [hU, hP]
    by_cases h200 : tresp.statusCode = 200 <;> simp [h200]

/-- Witness for C1 (amended): initial state, token "TOKEN", credentials
("user", "pass"), a failed telescope login (status 500). -/
theorem C1_witness :
    sendRequest initialState "/x" ⟨200, some Json.null⟩ =
        ([], .error .notLoggedInLegacy) ∧
      sendPostRequest initialState "/x" "\x7b\x7d" ⟨200, some Json.null⟩ =
        ([], .error .notLoggedInLegacy) ∧
      sendTelescopeRequest initialState "/x" ⟨200, some Json.null⟩ =
        ([], initialState, .error .notLoggedInTelescope) ∧
      ((login "TOKEN" initialState).2.2).loggedIn = true ∧
      ((telescopeLogin "user" "pass" initialState ⟨500, ""⟩).2.2).loggedIn =
        decide ((500 : Nat) = 200) :=
  C1_shared_logged_in_flag initialState "/x" "\x7b\x7d" ⟨200, some Json.null⟩
    "TOKEN" "user" "pass" ⟨500, ""⟩ rfl (by decide) (by decide) (by decide)

/-- C3 counterexample: the handle "Infinity" is non-empty and not purely
numeric, yet identity resolution with the numeric-ID platform accepts it —
the source tests `isNaN(Number(gamertag))` and `Number("Infinity")` is not
NaN, so no ValidationError is raised. -/
theorem C3_counterexample :
    specPurelyNumeric "Infinity" = false ∧ "Infinity" ≠ "" ∧
      mapGamertagToPlatform "Infinity" "uno" false =
        Except.ok
          { gamertag := "Infinity", _platform := "uno", lookupType := "id" } :=
  ⟨by decide, by decide, rfl⟩

/-- C3 (amended): resolution with the numeric-ID platform fails with the
uno ValidationError exactly when the handle is non-empty and does not
coerce to a JS number (`isNaN(Number(handle))`); every purely numeric
handle is accepted, but the rejection does not cover all non-purely-numeric
handles — those that still coerce (such as "Infinity" or "1e3") pass. -/
theorem C3_uno_rejection_iff_nan (g : String) :
    (mapGamertagToPlatform g "uno" false =
        Except.error CodError.unoNoNumericalId ↔
      g ≠ "" ∧ jsNumberIsNaN g = true) ∧
    (specPurelyNumeric g = true →
      mapGamertagToPlatform g "uno" false =
        Except.ok { gamertag := g, _platform := "uno", lookupType := "id" }) := by
  constructor
  · unfold mapGamertagToPlatform checkForValidPlatform
    by_cases hg : g = ""
    · subst hg
      simp [platformValues, handleLookupType, cleanClientName]
    · by_cases hn : jsNumberIsNaN g = true
      · simp [platformValues, hg, hn]
      · simp [platformValues, handleLookupType, cleanClientName, hg, hn]
  · intro hp
    simp only [specPurelyNumeric, Bool.and_eq_true] at hp
    have hdig : g.data.all isDigitChar = true := hp.2
    have hne : g ≠ "" := by
      intro e
      rw [e] at hp
      exact absurd hp.1 (by decide)
    unfold mapGamertagToPlatform checkForValidPlatform
    simp [platformValues, handleLookupType, cleanClientName, hne,
      jsNumberIsNaN_of_digits g hdig, encodeURIComponent_of_digits g hdig]

/-- Witness for C3 (amended): the purely numeric handle "42" resolves. -/
theorem C3_witness :
    mapGamertagToPlatform "42" "uno" false =
      Except.ok { gamertag := "42", _platform := "uno", lookupType := "id" } :=
  (C3_uno_rejection_iff_nan "42").2 (by decide)

/-- C4: for every numeric handle, the alias platform "acti" and the
numeric-ID platform "uno" both resolve to the wire platform segment "uno",
but with lookup kinds "gamer" and "id" respectively. -/
theorem C4_acti_uno_same_wire_segment (g : String) (hne : g ≠ "")
    (hdig : g.data.all isDigitChar = true) :
    mapGamertagToPlatform g "acti" false =
        Except.ok { gamertag := g, _platform := "uno", lookupType := "gamer" } ∧
      mapGamertagToPlatform g "uno" false =
        Except.ok { gamertag := g, _platform := "uno", lookupType := "id" } := by
  constructor
  · unfold mapGamertagToPlatform checkForValidPlatform
    simp [platformValues, handleLookupType, cleanClientName, hne,
      encodeURIComponent_of_digits g hdig]
  · unfold mapGamertagToPlatform checkForValidPlatform
    simp [platformValues, handleLookupType, cleanClientName, hne,
      jsNumberIsNaN_of_digits g hdig, encodeURIComponent_of_digits g hdig]

/-- Witness for C4 at the numeric handle "12345". -/
theorem C4_witness :
    mapGamertagToPlatform "12345" "acti" false =
        Except.ok
          { gamertag := "12345", _platform := "uno", lookupType := "gamer" } ∧
      mapGamertagToPlatform "12345" "uno" false =
        Except.ok
          { gamertag := "12345", _platform := "uno", lookupType := "id" } :=
  C4_acti_uno_same_wire_segment "12345" (by decide) (by decide)

/-- C5: the legacy match-detail path always contains the fixed mode literal
"wz" in its mode segment ("/fullMatch/wz/"), for every title, platform and
match id, and the path is independent of the mode configured for the
requesting title — including titles whose own mode is "mp". -/
theorem C5_matchInfo_fixed_wz_literal (e : Endpoints) (matchId m : String) :
    List.IsInfix ("/fullMatch/wz/".data) ((e.matchInfo matchId).data) ∧
      (Endpoints.mk e.game e.gamertag e.platform e.lookupType m).matchInfo
          matchId = e.matchInfo matchId := by
  constructor
  · refine
      ⟨("/crm/cod/v2/title/" ++ e.game ++ "/platform/" ++ e.platform).data,
        (matchId ++ "/en").data, ?_⟩
    simp [Endpoints.matchInfo, String.data_append, List.append_assoc]
  · rfl

/-- C6: the combat-history-with-date path builder applied to the window
(0, 0) produces a path identical to the plain combat-history builder, for
every title, gamertag, platform, lookup kind and mode. -/
theorem C6_combatHistory_zero_window (e : Endpoints) :
    e.combatHistoryWithDate 0 0 = e.combatHistory := by
  unfold Endpoints.combatHistoryWithDate Endpoints.combatHistory
  simp only [String.append_assoc]
  rfl

/-- C7: the restricted platform "steam" is rejected by identity resolution
whenever the override flag is false (the source's default), passes the
restriction check when the override is passed, and the fuzzy-search adapter
passes the override, so search accepts "steam". -/
theorem C7_steam_override (g : String) :
    mapGamertagToPlatform g "steam" false =
        Except.error CodError.steamUnsupported ∧
      mapGamertagToPlatform g "steam" true =
        Except.ok
          { gamertag := g, _platform := "steam", lookupType := "gamer" } ∧
      ALT_search_path g "steam" =
        Except.ok ("/crm/cod/v2/platform/steam/username/" ++ g ++ "/search") := by
  refine ⟨?_, ?_, ?_⟩
  · unfold mapGamertagToPlatform checkForValidPlatform
    simp [platformValues, handleLookupType]
    try rfl
  · unfold mapGamertagToPlatform checkForValidPlatform
    simp [platformValues, handleLookupType]
    try rfl
  · unfold ALT_search_path mapGamertagToPlatform checkForValidPlatform
    simp [platformValues, handleLookupType, Endpoints.search]
    try rfl

/-- C8: for every dispatched request on either backend (shared flag
authenticated), a response with status ≥ 500 fails with the transport error
carrying the status code — whatever the body, so no parse is attempted —
and the error's message contains the numeric status code; a response below
500 whose body is not valid JSON fails with the parse error, distinct from
every transport error; a well-formed JSON body (including an upstream error
payload) is returned to the caller unmodified. -/
theorem C8_status_classification (st : SessionState) (url : String)
    (resp : HttpResponse) (hAuth : st.loggedIn = true) :
    (500 ≤ resp.statusCode →
      (sendRequest st url resp).2 =
          Except.error (CodError.transport resp.statusCode) ∧
        (sendTelescopeRequest st url resp).2.2 =
          Except.error (CodError.transport resp.statusCode) ∧
        List.IsInfix (toString resp.statusCode).data
          ((CodError.transport resp.statusCode).message).data) ∧
    (resp.statusCode < 500 → resp.jsonBody = none →
      (sendRequest st url resp).2 = Except.error CodError.parseFailure ∧
        (sendTelescopeRequest st url resp).2.2 =
          Except.error CodError.parseFailure ∧
        ∀ n, CodError.parseFailure ≠ CodError.transport n) ∧
    (∀ j, resp.statusCode < 500 → resp.jsonBody = some j →
      (sendRequest st url resp).2 = Except.ok j ∧
        (sendTelescopeRequest st url resp).2.2 = Except.ok j) := by
  refine ⟨?_, ?_, ?_⟩
  · intro h500
    refine ⟨?_, ?_, ?_⟩
    · unfold sendRequest; simp [hAuth, h500]
    · unfold sendTelescopeRequest; simp [hAuth, h500]
    · refine ⟨("Received status code: '").data,
        ("'. Route may be down or not exist.").data, ?_⟩
      simp [CodError.message, String.data_append, List.append_assoc]
  · intro h500 hbody
    refine ⟨?_, ?_, ?_⟩
    · unfold sendRequest; simp [hAuth, Nat.not_le.mpr h500, hbody]
    · unfold sendTelescopeRequest; simp [hAuth, Nat.not_le.mpr h500, hbody]
    · intro n hne
      exact CodError.noConfusion hne
  · intro j h500 hbody
    constructor
    · unfold sendRequest; simp [hAuth, Nat.not_le.mpr h500, hbody]
    · unfold sendTelescopeRequest; simp [hAuth, Nat.not_le.mpr h500, hbody]

/-- Witness for C8: authenticated state, a 503 with an unparseable body. -/
theorem C8_witness :
    (sendRequest { initialState with loggedIn := true } "/x"
        { statusCode := 503, jsonBody := none }).2 =
      Except.error (CodError.transport 503) :=
  ((C8_status_classification { initialState with loggedIn := true } "/x"
      { statusCode := 503, jsonBody := none } rfl).1 (by decide)).1

/-- C10: platform validation accepts every member of the platforms
enumeration — for any handle passing the numeric-ID guard — including the
sentinel tag "all" and the null tag "_"; resolution raises no
ValidationError for those two tags and the built path embeds the literal as
its platform segment. -/
theorem C10_every_enum_platform_accepted :
    (∀ p, p ∈ platformValues → ∀ g,
      (p = "uno" → g ≠ "" → jsNumberIsNaN g = false) →
      checkForValidPlatform p g = Except.ok ()) ∧
    (∀ g game mode,
      mapGamertagToPlatform g "all" false =
          Except.ok { gamertag := g, _platform := "all", lookupType := "gamer" } ∧
        mapGamertagToPlatform g "_" false =
          Except.ok { gamertag := g, _platform := "_", lookupType := "gamer" } ∧
        List.IsInfix ("/platform/all/".data)
          ((Endpoints.mk game g "all" "gamer" mode).fullData).data ∧
        List.IsInfix ("/platform/_/".data)
          ((Endpoints.mk game g "_" "gamer" mode).fullData).data) := by
  constructor
  · intro p hp g hguard
    unfold checkForValidPlatform
    rw [if_neg (by simp [List.contains_iff_exists_mem_beq]; exact hp)]
    by_cases hu : p = "uno"
    · subst hu
      by_cases hg : g = ""
      · subst hg; simp
      · simp [hg, hguard rfl hg]
    · simp [hu]
  · intro g game mode
    refine ⟨?_, ?_, ?_, ?_⟩
    · unfold mapGamertagToPlatform checkForValidPlatform
      simp [platformValues, handleLookupType]
      try rfl
    · unfold mapGamertagToPlatform checkForValidPlatform
      simp [platformValues, handleLookupType]
      try rfl
    · refine ⟨("/stats/cod/v1/title/" ++ game).data,
        ("gamer" ++ "/" ++ g ++ "/profile/type/" ++ mode).data, ?_⟩
      have hseg : ("/platform/all/").data =
          ("/platform/").data ++ ("all").data ++ ("/").data := rfl
      simp [Endpoints.fullData, hseg, String.data_append, List.append_assoc]
    · refine ⟨("/stats/cod/v1/title/" ++ game).data,
        ("gamer" ++ "/" ++ g ++ "/profile/type/" ++ mode).data, ?_⟩
      have hseg : ("/platform/_/").data =
          ("/platform/").data ++ ("_").data ++ ("/").data := rfl
      simp [Endpoints.fullData, hseg, String.data_append, List.append_assoc]

/-- Witness for C10: the numeric-ID platform with the numeric handle "123". -/
theorem C10_witness :
    checkForValidPlatform "uno" "123" = Except.ok () :=
  C10_every_enum_platform_accepted.1 "uno" (by decide) "123"
    (fun _ _ => by decide)
